import Mathlib

/-!
Shallow embedding of the storefront coordination layer
(burning-orange-template): fragment-fetch race guards, debounced command
queue, overlay lifecycle, DOM region merge, and error handling, together
with theorems settling the specification claims about them.
-/

namespace BurningOrange

/-! ## Search drawer predictive search (SearchDrawer, src/unnamed/part_002)

State of a `search-drawer` element as far as `fetchResults` observes and
mutates it: the monotone `requestId` counter, the `is-loading` class, the
`[data-results]` container's innerHTML, the `[data-empty]` container, and
the `data-*` heading/template attributes read by `renderResults`.
-/

structure SearchItem where
  url : String
  title : String
  /-- `product.image`; `none` models an absent (or falsy) image field. -/
  image : Option String
  /-- `product.price`; `none` models an absent (or falsy) price field. -/
  price : Option String
deriving DecidableEq, Repr

structure SearchResources where
  products : List SearchItem
  articles : List SearchItem
  pages : List SearchItem
deriving DecidableEq, Repr

/-- Parsed JSON body of a predictive-search response. `resources = none`
models a body where `data.resources?.results` is undefined. -/
structure SearchData where
  resources : Option SearchResources
deriving DecidableEq, Repr

structure SDState where
  requestId : Nat
  isLoading : Bool
  resultsHTML : String
  emptyHidden : Bool
  emptyText : String
  noResultsTemplate : Option String
  productsHeading : Option String
  articlesHeading : Option String
  pagesHeading : Option String
  viewAllText : Option String
deriving DecidableEq, Repr

/-- One character of `escapeHtml` (textContent assigned to a div, innerHTML
read back): escapes the HTML-significant characters. -/
def escapeChar (c : Char) : String :=
  if c = '&' then "&amp;"
  else if c = '<' then "&lt;"
  else if c = '>' then "&gt;"
  else String.singleton c

def escapeHtml (s : String) : String :=
  String.join (s.toList.map escapeChar)

def hexDigit (n : Nat) : Char :=
  if n < 10 then Char.ofNat (48 + n) else Char.ofNat (55 + n % 16)

/-- ASCII model of `encodeURIComponent`: unreserved characters pass through,
others are percent-encoded bytewise. -/
def encodeURIComponent (s : String) : String :=
  String.join (s.toList.map (fun c =>
    if c.isAlphanum || c = '-' || c = '_' || c = '.' || c = '~' ||
       c = '!' || c = '*' || c = '(' || c = ')' then
      String.singleton c
    else
      "%" ++ String.singleton (hexDigit (c.toNat / 16 % 16)) ++
        String.singleton (hexDigit (c.toNat % 16))))

/-- JavaScript `String.prototype.replace` with a string pattern replaces only
the first occurrence. -/
def replaceFirst (s pat rep : String) : String :=
  match s.splitOn pat with
  | [] => s
  | [x] => x
  | x :: y :: rest => x ++ rep ++ String.intercalate pat (y :: rest)

def renderLinkItem (url title : String) : String :=
  "<a href=\"" ++ escapeHtml url ++ "\" class=\"search-drawer-result-item\">" ++
    "<span class=\"search-drawer-result-info\">" ++
    "<span class=\"search-drawer-result-title\">" ++ escapeHtml title ++
    "</span></span></a>"

def renderProductItem (p : SearchItem) : String :=
  let imageHtml := match p.image with
    | some img =>
        "<img class=\"search-drawer-result-image\" src=\"" ++ escapeHtml img ++
          "\" alt=\"\" width=\"48\" height=\"48\" loading=\"lazy\">"
    | none => ""
  let priceHtml := match p.price with
    | some pr => "<span class=\"search-drawer-result-price\">" ++ escapeHtml pr ++ "</span>"
    | none => ""
  "<a href=\"" ++ escapeHtml p.url ++ "\" class=\"search-drawer-result-item\">" ++
    imageHtml ++ "<span class=\"search-drawer-result-info\">" ++
    "<span class=\"search-drawer-result-title\">" ++ escapeHtml p.title ++ "</span>" ++
    priceHtml ++ "</span></a>"

def renderGroup (heading : String) (itemsHtml : List String) : String :=
  "<div class=\"search-drawer-results-group\">" ++
    "<h3 class=\"search-drawer-results-heading\">" ++ escapeHtml heading ++ "</h3>" ++
    String.join itemsHtml ++ "</div>"

/-- `clearResults`: empty the results container and hide the empty-state box. -/
def clearResults (s : SDState) : SDState :=
  { s with resultsHTML := "", emptyHidden := true }

/-- `renderResults(data, query)`: no resources clears the results; all groups
empty shows the no-results template; otherwise the grouped result markup plus
the view-all link is written to the results container. -/
def renderResults (data : SearchData) (query : String) (s : SDState) : SDState :=
  match data.resources with
  | none => clearResults s
  | some r =>
    if r.products.isEmpty && r.articles.isEmpty && r.pages.isEmpty then
      let template := s.noResultsTemplate.getD "No results for \"__TERMS__\""
      { s with resultsHTML := "", emptyHidden := false,
               emptyText := replaceFirst template "__TERMS__" query }
    else
      let productsHtml :=
        if r.products.isEmpty then ""
        else renderGroup (s.productsHeading.getD "Products") (r.products.map renderProductItem)
      let articlesHtml :=
        if r.articles.isEmpty then ""
        else renderGroup (s.articlesHeading.getD "Articles")
               (r.articles.map (fun a => renderLinkItem a.url a.title))
      let pagesHtml :=
        if r.pages.isEmpty then ""
        else renderGroup (s.pagesHeading.getD "Pages")
               (r.pages.map (fun p => renderLinkItem p.url p.title))
      let viewAll :=
        "<a href=\"/search?q=" ++ encodeURIComponent query ++
          "\" class=\"search-drawer-view-all\">" ++
          escapeHtml (s.viewAllText.getD "View all results") ++ "</a>"
      { s with emptyHidden := true,
               resultsHTML := productsHtml ++ articlesHtml ++ pagesHtml ++ viewAll }

/-- `fetchResults` up to its first await: `const currentRequest = ++this.requestId`
and `classList.add('is-loading')`. Returns the new state and the captured token. -/
def fetchResultsIssue (s : SDState) : SDState × Nat :=
  let tok := s.requestId + 1
  ({ s with requestId := tok, isLoading := true }, tok)

/-- `fetchResults` from response arrival onward: the guard
`if (!response.ok || currentRequest !== this.requestId) return` followed by
`renderResults`, then the `finally` block, which removes `is-loading` only
when `currentRequest === this.requestId`. -/
def fetchResultsComplete (tok : Nat) (ok : Bool) (data : SearchData) (query : String)
    (s : SDState) : SDState :=
  let s1 := if ok && tok == s.requestId then renderResults data query s else s
  if tok == s1.requestId then { s1 with isLoading := false } else s1

/-- Interleaving events for one search drawer: a fetch being issued (debounce
timer fired) or a network response arriving for the request whose captured
token is `tok`. -/
inductive SDEvent where
  | issue (query : String)
  | complete (tok : Nat) (ok : Bool) (data : SearchData) (query : String)
deriving DecidableEq, Repr

def sdStep (s : SDState) (e : SDEvent) : SDState :=
  match e with
  | .issue _ => (fetchResultsIssue s).1
  | .complete tok ok data q => fetchResultsComplete tok ok data q s

def sdRun (s : SDState) (es : List SDEvent) : SDState :=
  es.foldl sdStep s

lemma renderResults_requestId (data : SearchData) (q : String) (s : SDState) :
    (renderResults data q s).requestId = s.requestId := by
  unfold renderResults
  cases data.resources with
  | none => rfl
  | some r =>
    dsimp only
    split <;> rfl

lemma fetchResultsComplete_requestId (tok : Nat) (ok : Bool) (data : SearchData)
    (q : String) (s : SDState) :
    (fetchResultsComplete tok ok data q s).requestId = s.requestId := by
  unfold fetchResultsComplete
  dsimp only
  split <;> split <;> simp [renderResults_requestId]

lemma fetchResultsComplete_stale (tok : Nat) (ok : Bool) (data : SearchData)
    (q : String) (s : SDState) (h : tok ≠ s.requestId) :
    fetchResultsComplete tok ok data q s = s := by
  unfold fetchResultsComplete
  have hb : (tok == s.requestId) = false := by
    simpa using h
  simp [hb]

/-! ## Product form variant section rendering (ProductForm.renderVariantSections,
src/assets/product-form.js)

State of a `product-form` element as far as `renderVariantSections` observes
and mutates it: `renderRequestId`, the `is-loading` class, the `data-section-id`
attribute, and the inner content of each `[data-variant-render]` region. The
re-caching of `this.submitButton` after a swap is a pointer refresh with no
observable DOM effect and is not part of the state.
-/

structure PFState where
  renderRequestId : Nat
  isLoading : Bool
  sectionId : Option String
  /-- The `[data-variant-render]` descendants in document order:
  `data-variant-render` attribute value paired with innerHTML. -/
  regions : List (String × String)
deriving DecidableEq, Repr

/-- First element of a parsed response document matching
`[data-variant-render="name"]`, as `doc.querySelector` finds it. -/
def docLookup (doc : List (String × String)) (name : String) : Option String :=
  (doc.find? (fun p => p.1 == name)).map (fun p => p.2)

/-- The swap loop of `renderVariantSections`: for each live region, if the
incoming document has a matching region, replace the live innerHTML. -/
def swapVariantRegions (doc : List (String × String))
    (regions : List (String × String)) : List (String × String) :=
  regions.map (fun r =>
    match docLookup doc r.1 with
    | some inner => (r.1, inner)
    | none => r)

/-- `renderVariantSections` up to its first await, after the
`if (!this.sectionId) return` guard: `const requestId = ++this.renderRequestId`
and `classList.add('is-loading')`. -/
def renderVariantSectionsIssue (s : PFState) : PFState × Nat :=
  let tok := s.renderRequestId + 1
  ({ s with renderRequestId := tok, isLoading := true }, tok)

/-- `renderVariantSections` from response arrival onward: the guard
`if (!response.ok || requestId !== this.renderRequestId) return`, the region
swap loop, and the `finally` block, which removes `is-loading` only when
`requestId === this.renderRequestId`. -/
def renderVariantSectionsComplete (tok : Nat) (ok : Bool)
    (doc : List (String × String)) (s : PFState) : PFState :=
  let s1 := if ok && tok == s.renderRequestId then
              { s with regions := swapVariantRegions doc s.regions }
            else s
  if tok == s1.renderRequestId then { s1 with isLoading := false } else s1

/-- Interleaving events for one product form: a variant-section fetch being
issued, or a response arriving for the request with captured token `tok`. -/
inductive PFEvent where
  | issue (variantId : Nat)
  | complete (tok : Nat) (ok : Bool) (doc : List (String × String))
deriving DecidableEq, Repr

def pfStep (s : PFState) (e : PFEvent) : PFState :=
  match e with
  | .issue _ =>
      match s.sectionId with
      | none => s
      | some _ => (renderVariantSectionsIssue s).1
  | .complete tok ok doc => renderVariantSectionsComplete tok ok doc s

def pfRun (s : PFState) (es : List PFEvent) : PFState :=
  es.foldl pfStep s

lemma renderVariantSectionsComplete_requestId (tok : Nat) (ok : Bool)
    (doc : List (String × String)) (s : PFState) :
    (renderVariantSectionsComplete tok ok doc s).renderRequestId = s.renderRequestId := by
  unfold renderVariantSectionsComplete
  dsimp only
  split <;> split <;> rfl

lemma renderVariantSectionsComplete_stale (tok : Nat) (ok : Bool)
    (doc : List (String × String)) (s : PFState) (h : tok ≠ s.renderRequestId) :
    renderVariantSectionsComplete tok ok doc s = s := by
  unfold renderVariantSectionsComplete
  have hb : (tok == s.renderRequestId) = false := by
    simpa using h
  simp [hb]

/-- C1. For both consumers of the fragment-fetch protocol (search drawer
predictive search and product form variant rendering): a completed response is
applied only when its captured token equals the consumer's current token, a
response with any other token leaves the state entirely unchanged, and for two
fetches issued at t1 < t2, both arrival orders leave exactly the state in which
only the t2 response was applied, so the final DOM reflects only the latest
issued request. -/
theorem C1_stale_responses_discarded :
    (∀ (s : SDState) (tok : Nat) (ok : Bool) (data : SearchData) (q : String),
        tok ≠ s.requestId → fetchResultsComplete tok ok data q s = s)
  ∧ (∀ (s : SDState) (q1 q2 : String) (ok1 ok2 : Bool) (d1 d2 : SearchData),
        sdRun s [.issue q1, .issue q2,
                 .complete (s.requestId + 2) ok2 d2 q2,
                 .complete (s.requestId + 1) ok1 d1 q1]
          = sdRun s [.issue q1, .issue q2, .complete (s.requestId + 2) ok2 d2 q2]
      ∧ sdRun s [.issue q1, .issue q2,
                 .complete (s.requestId + 1) ok1 d1 q1,
                 .complete (s.requestId + 2) ok2 d2 q2]
          = sdRun s [.issue q1, .issue q2, .complete (s.requestId + 2) ok2 d2 q2])
  ∧ (∀ (s : PFState) (tok : Nat) (ok : Bool) (doc : List (String × String)),
        tok ≠ s.renderRequestId → renderVariantSectionsComplete tok ok doc s = s)
  ∧ (∀ (s : PFState) (v1 v2 : Nat) (ok1 ok2 : Bool)
        (d1 d2 : List (String × String)), s.sectionId.isSome →
        pfRun s [.issue v1, .issue v2,
                 .complete (s.renderRequestId + 2) ok2 d2,
                 .complete (s.renderRequestId + 1) ok1 d1]
          = pfRun s [.issue v1, .issue v2, .complete (s.renderRequestId + 2) ok2 d2]
      ∧ pfRun s [.issue v1, .issue v2,
                 .complete (s.renderRequestId + 1) ok1 d1,
                 .complete (s.renderRequestId + 2) ok2 d2]
          = pfRun s [.issue v1, .issue v2, .complete (s.renderRequestId + 2) ok2 d2]) := by
  refine ⟨fun s tok ok data q h => fetchResultsComplete_stale tok ok data q s h, ?_,
          fun s tok ok doc h => renderVariantSectionsComplete_stale tok ok doc s h, ?_⟩
  · intro s q1 q2 ok1 ok2 d1 d2
    have hXr : (sdRun s [SDEvent.issue q1, SDEvent.issue q2]).requestId = s.requestId + 2 := by
      simp [sdRun, sdStep, fetchResultsIssue]
    constructor
    · show fetchResultsComplete (s.requestId + 1) ok1 d1 q1
          (fetchResultsComplete (s.requestId + 2) ok2 d2 q2
            (sdRun s [SDEvent.issue q1, SDEvent.issue q2]))
        = fetchResultsComplete (s.requestId + 2) ok2 d2 q2
            (sdRun s [SDEvent.issue q1, SDEvent.issue q2])
      apply fetchResultsComplete_stale
      rw [fetchResultsComplete_requestId, hXr]
      omega
    · show fetchResultsComplete (s.requestId + 2) ok2 d2 q2
          (fetchResultsComplete (s.requestId + 1) ok1 d1 q1
            (sdRun s [SDEvent.issue q1, SDEvent.issue q2]))
        = fetchResultsComplete (s.requestId + 2) ok2 d2 q2
            (sdRun s [SDEvent.issue q1, SDEvent.issue q2])
      have hstale : fetchResultsComplete (s.requestId + 1) ok1 d1 q1
          (sdRun s [SDEvent.issue q1, SDEvent.issue q2])
          = sdRun s [SDEvent.issue q1, SDEvent.issue q2] :=
        fetchResultsComplete_stale _ _ _ _ _ (by rw [hXr]; omega)
      rw [hstale]
  · intro s v1 v2 ok1 ok2 d1 d2 hsome
    obtain ⟨sid, hsid⟩ := Option.isSome_iff_exists.mp hsome
    have hXr : (pfRun s [PFEvent.issue v1, PFEvent.issue v2]).renderRequestId
        = s.renderRequestId + 2 := by
      simp [pfRun, pfStep, renderVariantSectionsIssue, hsid]
    constructor
    · show renderVariantSectionsComplete (s.renderRequestId + 1) ok1 d1
          (renderVariantSectionsComplete (s.renderRequestId + 2) ok2 d2
            (pfRun s [PFEvent.issue v1, PFEvent.issue v2]))
        = renderVariantSectionsComplete (s.renderRequestId + 2) ok2 d2
            (pfRun s [PFEvent.issue v1, PFEvent.issue v2])
      apply renderVariantSectionsComplete_stale
      rw [renderVariantSectionsComplete_requestId, hXr]
      omega
    · show renderVariantSectionsComplete (s.renderRequestId + 2) ok2 d2
          (renderVariantSectionsComplete (s.renderRequestId + 1) ok1 d1
            (pfRun s [PFEvent.issue v1, PFEvent.issue v2]))
        = renderVariantSectionsComplete (s.renderRequestId + 2) ok2 d2
            (pfRun s [PFEvent.issue v1, PFEvent.issue v2])
      have hstale : renderVariantSectionsComplete (s.renderRequestId + 1) ok1 d1
          (pfRun s [PFEvent.issue v1, PFEvent.issue v2])
          = pfRun s [PFEvent.issue v1, PFEvent.issue v2] :=
        renderVariantSectionsComplete_stale _ _ _ _ (by rw [hXr]; omega)
      rw [hstale]

/-- Witness for C1: the discard rule evaluated at a concrete stale token for
both consumers. -/
theorem C1_stale_responses_discarded_witness :
    (fetchResultsComplete 1 true ⟨none⟩ "shoe"
        { requestId := 2, isLoading := true, resultsHTML := "r", emptyHidden := true,
          emptyText := "", noResultsTemplate := none, productsHeading := none,
          articlesHeading := none, pagesHeading := none, viewAllText := none }
      = { requestId := 2, isLoading := true, resultsHTML := "r", emptyHidden := true,
          emptyText := "", noResultsTemplate := none, productsHeading := none,
          articlesHeading := none, pagesHeading := none, viewAllText := none })
  ∧ (pfRun { renderRequestId := 0, isLoading := false, sectionId := some "main-product",
             regions := [("price", "old")] }
        [.issue 11, .issue 12, .complete 2 true [("price", "new")],
         .complete 1 true [("price", "mid")]]
      = pfRun { renderRequestId := 0, isLoading := false, sectionId := some "main-product",
                regions := [("price", "old")] }
        [.issue 11, .issue 12, .complete 2 true [("price", "new")]]) :=
  ⟨C1_stale_responses_discarded.1 _ 1 true ⟨none⟩ "shoe" (by decide),
   (C1_stale_responses_discarded.2.2.2
      { renderRequestId := 0, isLoading := false, sectionId := some "main-product",
        regions := [("price", "old")] } 11 12 true true
      [("price", "mid")] [("price", "new")] (by rfl)).1⟩

/-! ## Debounced command queue (CartItems.debouncedUpdate, src/assets/cart-items.js;
the same single-slot pattern backs SearchDrawer.onInput, src/unnamed/part_002)

`debouncedUpdate(key, quantity)` runs `clearTimeout(this.debounceTimer)` and
arms a fresh 300ms timer; the component holds a single `debounceTimer` slot.
The timer machinery is modelled with discrete time: a schedule call at time `t`
arms the slot with deadline `t + delay`; an armed slot fires (running
`updateItem(key, quantity)`) once time reaches its deadline, and a schedule
call strictly before the deadline cancels it. `debounceRun` processes the
time-ordered schedule calls against the slot and returns the fired tasks in
firing order, the still-armed slot firing at the end.
-/

structure ScheduleCall where
  time : Nat
  key : String
  quantity : Int
deriving DecidableEq, Repr

def debounceRun (delay : Nat) :
    List ScheduleCall → Option (Nat × String × Int) → List (String × Int)
  | [], none => []
  | [], some (_, k, q) => [(k, q)]
  | c :: rest, none =>
      debounceRun delay rest (some (c.time + delay, c.key, c.quantity))
  | c :: rest, some (d, k, q) =>
      if d ≤ c.time then
        (k, q) :: debounceRun delay rest (some (c.time + delay, c.key, c.quantity))
      else
        debounceRun delay rest (some (c.time + delay, c.key, c.quantity))

lemma debounceRun_pending_rapid (delay : Nat) :
    ∀ (rest : List ScheduleCall) (c : ScheduleCall),
      List.Chain' (fun a b => b.time < a.time + delay) (c :: rest) →
      debounceRun delay rest (some (c.time + delay, c.key, c.quantity))
        = [(((c :: rest).getLast (List.cons_ne_nil c rest)).key,
            ((c :: rest).getLast (List.cons_ne_nil c rest)).quantity)] := by
  intro rest
  induction rest with
  | nil =>
    intro c _
    rfl
  | cons c2 rest2 ih =>
    intro c hch
    rw [List.chain'_cons] at hch
    show (if c.time + delay ≤ c2.time then
            (c.key, c.quantity) ::
              debounceRun delay rest2 (some (c2.time + delay, c2.key, c2.quantity))
          else
            debounceRun delay rest2 (some (c2.time + delay, c2.key, c2.quantity)))
        = _
    rw [if_neg (by omega)]
    rw [ih c2 hch.2]
    rw [List.getLast_cons (List.cons_ne_nil c2 rest2)]

/-- C2, counterexample: two schedule calls for different cart line-item keys
within the 300ms delay share the single `debounceTimer` slot, so only the
second task ever executes; the first key never gets an execution of its own. -/
theorem C2_counterexample_per_key_pending :
    debounceRun 300 [⟨0, "key-a", 1⟩, ⟨100, "key-b", 2⟩] none = [("key-b", 2)]
  ∧ ∀ e ∈ debounceRun 300 [⟨0, "key-a", 1⟩, ⟨100, "key-b", 2⟩] none, e.1 ≠ "key-a" := by
  decide

/-- C2, amended: the pending-task slot is per component, not per key. N rapid
schedule calls, each arriving strictly within the delay of the previous one,
produce exactly one task execution using the key and quantity of the last
call — regardless of whether the keys agree. -/
theorem C2_debounce_single_slot_coalescing (delay : Nat) (c : ScheduleCall)
    (rest : List ScheduleCall)
    (h : List.Chain' (fun a b => b.time < a.time + delay) (c :: rest)) :
    debounceRun delay (c :: rest) none
      = [(((c :: rest).getLast (List.cons_ne_nil c rest)).key,
          ((c :: rest).getLast (List.cons_ne_nil c rest)).quantity)] :=
  debounceRun_pending_rapid delay rest c h

/-- Witness for C2: three rapid calls, mixed keys, coalesce to the last call. -/
theorem C2_debounce_single_slot_coalescing_witness :
    debounceRun 300 [⟨0, "k1", 5⟩, ⟨200, "k2", 7⟩, ⟨350, "k1", 9⟩] none = [("k1", 9)] :=
  C2_debounce_single_slot_coalescing 300 ⟨0, "k1", 5⟩ [⟨200, "k2", 7⟩, ⟨350, "k1", 9⟩]
    (by
      rw [List.chain'_cons, List.chain'_cons]
      exact ⟨by decide, by decide, List.chain'_singleton _⟩)

/-! ## DOM region merge (FilterDrawer.swap, src/unnamed/part_000, and
CartDrawer.renderFromHTML, src/assets/cart-drawer.js)

An element is modelled by the two things any merge path writes: its inner
content and its `hidden` attribute. A root is its matchable elements in
document order, selector paired with element; `querySelector` finds the
first match.
-/

structure Elem where
  inner : String
  hidden : Bool
deriving DecidableEq, Repr

def qsel : List (String × Elem) → String → Option Elem
  | [], _ => none
  | p :: rest, sel => if p.1 == sel then some p.2 else qsel rest sel

/-- Assignment `current.innerHTML = next.innerHTML` on the first live element
matching the selector. -/
def setInnerFirst (sel inner : String) : List (String × Elem) → List (String × Elem)
  | [] => []
  | p :: rest =>
      if p.1 == sel then (p.1, { p.2 with inner := inner }) :: rest
      else p :: setInnerFirst sel inner rest

/-- FilterDrawer.swap: when both roots contain a match for the selector,
replace only the live match's inner content with the incoming match's inner
content; otherwise leave the live root alone. -/
def swap (sel : String) (live incoming : List (String × Elem)) : List (String × Elem) :=
  match qsel live sel, qsel incoming sel with
  | some _, some nxt => setInnerFirst sel nxt.inner live
  | _, _ => live

/-- The merge applyFilters performs by calling swap once per region selector. -/
def mergeRegions (selectors : List String) (live incoming : List (String × Elem)) :
    List (String × Elem) :=
  selectors.foldl (fun acc sel => swap sel acc incoming) live

lemma swap_incoming_absent (sel : String) (live incoming : List (String × Elem))
    (h : qsel incoming sel = none) : swap sel live incoming = live := by
  cases h2 : qsel live sel <;> simp [swap, h, h2]

lemma mergeRegions_incoming_absent (selectors : List String)
    (live incoming : List (String × Elem))
    (h : ∀ sel ∈ selectors, qsel incoming sel = none) :
    mergeRegions selectors live incoming = live := by
  induction selectors generalizing live with
  | nil => rfl
  | cons sel rest ih =>
    unfold mergeRegions
    rw [List.foldl_cons, swap_incoming_absent sel live incoming (h sel (by simp))]
    exact ih live (fun s hs => h s (by simp [hs]))

lemma qsel_setInnerFirst_self (sel v : String) (live : List (String × Elem)) :
    qsel (setInnerFirst sel v live) sel
      = (qsel live sel).map (fun e => { e with inner := v }) := by
  induction live with
  | nil => rfl
  | cons p rest ih =>
    by_cases h : p.1 == sel <;> simp [qsel, setInnerFirst, h, ih]

lemma qsel_setInnerFirst_ne (sel v sel2 : String) (live : List (String × Elem))
    (h : sel2 ≠ sel) :
    qsel (setInnerFirst sel v live) sel2 = qsel live sel2 := by
  induction live with
  | nil => rfl
  | cons p rest ih =>
    by_cases h1 : p.1 = sel
    · have h2 : (p.1 == sel2) = false := by
        rw [beq_eq_false_iff_ne]
        intro hc
        exact h (hc.symm.trans h1)
      simp [qsel, setInnerFirst, h1, h2, h, Ne.symm h]
    · by_cases h2 : p.1 = sel2 <;> simp [qsel, setInnerFirst, h1, h2, ih, h, Ne.symm h]

/-! Cart drawer section content as renderFromHTML addresses it: the
`.cart-drawer-body`, `.cart-drawer-footer` and `.cart-drawer-count` elements,
whether the `.cart-drawer-panel` wrapper exists, and (for a parsed response
document) whether a `cart-drawer` element exists at all. -/

structure DrawerDoc where
  drawerPresent : Bool
  body : Option Elem
  footer : Option Elem
  count : Option Elem
  panelPresent : Bool
deriving DecidableEq, Repr

/-- Body block of renderFromHTML: replace the live body's inner content when
both sides have a body. -/
def rBody (incoming live : DrawerDoc) : DrawerDoc :=
  match live.body, incoming.body with
  | some b, some nb => { live with body := some { b with inner := nb.inner } }
  | _, _ => live

/-- Footer block of renderFromHTML: replace-and-unhide when both sides have a
footer; insert a copy into the panel when only the incoming side has one;
hide the live footer when the incoming side has none. -/
def rFooter (incoming live : DrawerDoc) : DrawerDoc :=
  match incoming.footer with
  | some nf =>
      match live.footer with
      | some f => { live with footer := some { f with inner := nf.inner, hidden := false } }
      | none => if live.panelPresent then { live with footer := some nf } else live
  | none =>
      match live.footer with
      | some f => { live with footer := some { f with hidden := true } }
      | none => live

/-- Count block of renderFromHTML: replace the displayed item count when both
sides have a count element. -/
def rCount (incoming live : DrawerDoc) : DrawerDoc :=
  match live.count, incoming.count with
  | some c, some nc => { live with count := some { c with inner := nc.inner } }
  | _, _ => live

/-- CartDrawer.renderFromHTML: bail out when the parsed document has no
`cart-drawer` element, otherwise run the body, footer and count blocks. -/
def renderFromHTML (incoming live : DrawerDoc) : DrawerDoc :=
  if !incoming.drawerPresent then live
  else rCount incoming (rFooter incoming (rBody incoming live))

lemma rBody_footer (incoming live : DrawerDoc) :
    (rBody incoming live).footer = live.footer := by
  unfold rBody
  cases live.body <;> cases incoming.body <;> rfl

lemma rBody_panelPresent (incoming live : DrawerDoc) :
    (rBody incoming live).panelPresent = live.panelPresent := by
  unfold rBody
  cases live.body <;> cases incoming.body <;> rfl

lemma rCount_footer (incoming live : DrawerDoc) :
    (rCount incoming live).footer = live.footer := by
  unfold rCount
  cases live.count <;> cases incoming.count <;> rfl

/-- C5, counterexample: in CartDrawer.renderFromHTML, a live footer whose
selector has no match in the incoming root is not left untouched — its
`hidden` attribute is set. -/
theorem C5_counterexample_footer_not_untouched :
    (renderFromHTML ⟨true, none, none, none, false⟩
        ⟨true, some ⟨"items", false⟩, some ⟨"checkout", false⟩, some ⟨"(2)", false⟩, true⟩).footer
      = some ⟨"checkout", true⟩
  ∧ (⟨"checkout", true⟩ : Elem) ≠ ⟨"checkout", false⟩ := by
  decide

/-- C5, amended: FilterDrawer.swap satisfies the claim exactly — a selector
with no incoming match leaves the live root (and a whole mergeRegions pass
over unmatched selectors leaves it) unchanged, and when both roots match, only
the first live match's inner content is replaced (its `hidden` attribute and
every other element are untouched). CartDrawer.renderFromHTML treats the
footer specially: with both footers present it also clears the live footer's
`hidden` attribute, and with no incoming footer it hides the live footer
instead of leaving it untouched. -/
theorem C5_merge_inner_only_with_footer_toggle :
    (∀ (sel : String) (live incoming : List (String × Elem)),
        qsel incoming sel = none → swap sel live incoming = live)
  ∧ (∀ (selectors : List String) (live incoming : List (String × Elem)),
        (∀ sel ∈ selectors, qsel incoming sel = none) →
        mergeRegions selectors live incoming = live)
  ∧ (∀ (sel : String) (live incoming : List (String × Elem)) (cur nxt : Elem),
        qsel live sel = some cur → qsel incoming sel = some nxt →
        qsel (swap sel live incoming) sel = some { cur with inner := nxt.inner }
        ∧ ∀ sel2, sel2 ≠ sel → qsel (swap sel live incoming) sel2 = qsel live sel2)
  ∧ (∀ (incoming live : DrawerDoc) (f nf : Elem), incoming.drawerPresent = true →
        incoming.footer = some nf → live.footer = some f →
        (renderFromHTML incoming live).footer
          = some { f with inner := nf.inner, hidden := false })
  ∧ (∀ (incoming live : DrawerDoc) (f : Elem), incoming.drawerPresent = true →
        incoming.footer = none → live.footer = some f →
        (renderFromHTML incoming live).footer = some { f with hidden := true }) := by
  refine ⟨swap_incoming_absent, mergeRegions_incoming_absent, ?_, ?_, ?_⟩
  · intro sel live incoming cur nxt hl hn
    constructor
    · simp [swap, hl, hn, qsel_setInnerFirst_self]
    · intro sel2 h2
      simp [swap, hl, hn, qsel_setInnerFirst_ne sel nxt.inner sel2 live h2]
  · intro incoming live f nf hdp hfi hfl
    simp [renderFromHTML, hdp, rCount_footer, rFooter, hfi, rBody_footer, hfl]
  · intro incoming live f hdp hfi hfl
    simp [renderFromHTML, hdp, rCount_footer, rFooter, hfi, rBody_footer, hfl]

/-- Witness for C5: a concrete unmatched swap left untouched, and a concrete
footer hidden on an incoming document without one. -/
theorem C5_merge_inner_only_with_footer_toggle_witness :
    swap "[data-products]" [("[data-sorting]", ⟨"keep", false⟩)] []
      = [("[data-sorting]", ⟨"keep", false⟩)]
  ∧ (renderFromHTML ⟨true, none, none, none, false⟩
       ⟨true, none, some ⟨"subtotal", false⟩, none, true⟩).footer
      = some ⟨"subtotal", true⟩ :=
  ⟨C5_merge_inner_only_with_footer_toggle.1 "[data-products]"
     [("[data-sorting]", ⟨"keep", false⟩)] [] rfl,
   C5_merge_inner_only_with_footer_toggle.2.2.2.2 ⟨true, none, none, none, false⟩
     ⟨true, none, some ⟨"subtotal", false⟩, none, true⟩ ⟨"subtotal", false⟩ rfl rfl rfl⟩

/-- The possible outcomes of a fragment fetch: a transport error (the fetch
promise rejects), a response with a non-success status (`!response.ok`), or an
ok response with a parsed body. -/
inductive FetchOutcome (α : Type) where
  | network
  | httpError (status : Nat)
  | ok (body : α)
deriving DecidableEq, Repr

/-! ## Document focus model

Elements are identified by numeric ids; id 0 is `document.body`, which always
exists. `document.activeElement` is the focused id. Calling `.focus()` on an
element that is no longer in the document is a no-op (a detached element is
not focusable), which `focusElem` encodes.
-/

structure Doc where
  activeElement : Nat
  elements : List Nat
deriving DecidableEq, Repr

def focusElem (doc : Doc) (e : Nat) : Doc :=
  if e ∈ doc.elements then { doc with activeElement := e } else doc

lemma focusElem_elements (doc : Doc) (e : Nat) :
    (focusElem doc e).elements = doc.elements := by
  unfold focusElem
  split <;> rfl

lemma focusElem_active_of_mem (doc : Doc) (e : Nat) (h : e ∈ doc.elements) :
    (focusElem doc e).activeElement = e := by
  simp [focusElem, h]

lemma focusElem_not_mem (doc : Doc) (e : Nat) (h : e ∉ doc.elements) :
    focusElem doc e = doc := by
  simp [focusElem, h]

/-! ## Cart drawer lifecycle (CartDrawer, src/assets/cart-drawer.js)

State of a `cart-drawer` element: the `is-open` class (the `isOpen` getter),
`aria-hidden`, the body scroll lock class, whether `handleKeydown` is
registered on the document (`addEventListener` with the same listener twice
registers it once, so a Bool is the faithful model), the captured
`previouslyFocused` element, the `stale` flag, the `is-loading` class, the
drawer's section content, and the focusable descendants in DOM order.
`refreshCount` counts invocations of `refresh()`, so that "triggers exactly
one refresh" is statable.
-/

structure CDrawer where
  isOpen : Bool
  ariaHidden : Bool
  bodyScrollLocked : Bool
  keydownRegistered : Bool
  previouslyFocused : Option Nat
  stale : Bool
  isLoading : Bool
  content : DrawerDoc
  refreshCount : Nat
  focusables : List Nat
deriving DecidableEq, Repr

/-- CartDrawer.open: when stale, trigger a refresh (its synchronous prefix
adds `is-loading`) and clear the flag; capture the focused element; add the
open classes; register the keydown listener; focus the first focusable
descendant (skipped when there is none). -/
def cartOpen (w : Doc × CDrawer) : Doc × CDrawer :=
  let doc := w.1
  let d := w.2
  let d := if d.stale then
      { d with refreshCount := d.refreshCount + 1, isLoading := true, stale := false }
    else d
  let d := { d with previouslyFocused := some doc.activeElement,
                    isOpen := true, ariaHidden := false, bodyScrollLocked := true,
                    keydownRegistered := true }
  let doc := match d.focusables with
    | [] => doc
    | e :: _ => focusElem doc e
  (doc, d)

/-- CartDrawer.close: remove the open classes, unregister the keydown
listener, and when a captured element exists, focus it and clear the capture. -/
def cartClose (w : Doc × CDrawer) : Doc × CDrawer :=
  let doc := w.1
  let d := w.2
  let d1 := { d with isOpen := false, ariaHidden := true, bodyScrollLocked := false,
                     keydownRegistered := false }
  match d1.previouslyFocused with
  | some e => (focusElem doc e, { d1 with previouslyFocused := none })
  | none => (doc, d1)

/-- CartDrawer._onCartUpdated: `sections` is the parsed
`e.detail?.sections?.['cart-drawer']` payload when present (and truthy). With
bundled HTML the drawer renders immediately; otherwise an open drawer triggers
a refresh and a closed one only marks itself stale. -/
def onCartUpdated (sections : Option DrawerDoc) (w : Doc × CDrawer) : Doc × CDrawer :=
  let doc := w.1
  let d := w.2
  match sections with
  | some incoming => (doc, { d with content := renderFromHTML incoming d.content })
  | none =>
      if d.isOpen then
        (doc, { d with refreshCount := d.refreshCount + 1, isLoading := true })
      else
        (doc, { d with stale := true })

/-- One complete execution of CartDrawer.refresh for a given fetch outcome:
add `is-loading`; a transport error or a non-ok status renders nothing; an ok
response is parsed and merged by renderFromHTML (a malformed body parses to a
document without a `cart-drawer` element, which renderFromHTML ignores); the
`finally` block removes `is-loading` in every case. -/
def cartRefreshRun (outcome : FetchOutcome DrawerDoc) (d : CDrawer) : CDrawer :=
  let d := { d with refreshCount := d.refreshCount + 1, isLoading := true }
  match outcome with
  | .network => { d with isLoading := false }
  | .httpError _ => { d with isLoading := false }
  | .ok body => { d with content := renderFromHTML body d.content, isLoading := false }

/-! ## Mobile menu lifecycle (MobileMenu, src/unnamed/part_001) -/

structure MMenu where
  isOpen : Bool
  ariaHidden : Bool
  bodyScrollLocked : Bool
  /-- the trigger's aria-expanded value; `none` models a missing trigger. -/
  triggerExpanded : Option Bool
  keydownRegistered : Bool
  previouslyFocused : Option Nat
  /-- the `[data-close]` button; `none` models a panel without one. -/
  closeBtn : Option Nat
deriving DecidableEq, Repr

/-- MobileMenu.open: capture the focused element, add the open classes, set
aria-expanded on the trigger, register the keydown listener, and focus the
close button when it exists. -/
def menuOpen (w : Doc × MMenu) : Doc × MMenu :=
  let doc := w.1
  let m := w.2
  let m := { m with previouslyFocused := some doc.activeElement,
                    isOpen := true, ariaHidden := false, bodyScrollLocked := true,
                    triggerExpanded := m.triggerExpanded.map (fun _ => true),
                    keydownRegistered := true }
  let doc := match m.closeBtn with
    | some b => focusElem doc b
    | none => doc
  (doc, m)

/-- MobileMenu.close: remove the open classes, clear aria-expanded, remove the
keydown listener, and when a captured element exists, focus it and clear the
capture. -/
def menuClose (w : Doc × MMenu) : Doc × MMenu :=
  let doc := w.1
  let m := w.2
  let m1 := { m with isOpen := false, ariaHidden := true, bodyScrollLocked := false,
                     triggerExpanded := m.triggerExpanded.map (fun _ => false),
                     keydownRegistered := false }
  match m1.previouslyFocused with
  | some e => (focusElem doc e, { m1 with previouslyFocused := none })
  | none => (doc, m1)

/-- C3, counterexample: open() has no already-open guard, so a second open()
re-captures the currently focused element — by then the drawer's own first
focusable descendant — and close() after a double open() restores focus to
that descendant (element 2) instead of the element focused before the first
open() (element 1). -/
theorem C3_counterexample_double_open_recaptures_focus :
    (cartOpen (cartOpen (⟨1, [0, 1, 2]⟩,
        ⟨false, true, false, false, none, false, false,
          ⟨true, none, none, none, true⟩, 0, [2]⟩))).2.previouslyFocused = some 2
  ∧ (cartOpen (⟨1, [0, 1, 2]⟩,
        ⟨false, true, false, false, none, false, false,
          ⟨true, none, none, none, true⟩, 0, [2]⟩)).2.previouslyFocused = some 1
  ∧ (cartClose (cartOpen (cartOpen (⟨1, [0, 1, 2]⟩,
        ⟨false, true, false, false, none, false, false,
          ⟨true, none, none, none, true⟩, 0, [2]⟩)))).1.activeElement = 2
  ∧ (cartClose (cartOpen (⟨1, [0, 1, 2]⟩,
        ⟨false, true, false, false, none, false, false,
          ⟨true, none, none, none, true⟩, 0, [2]⟩))).1.activeElement = 1 := by
  decide

/-- C3, amended: close() twice is idempotent (for the cart drawer and the
mobile menu), and open() twice registers no duplicate key-listener and leaves
the open flag as after one open(); but open() twice re-captures focus, so on a
panel whose first focusable descendant exists, close() after a double open()
restores focus to that descendant, not to the element focused before the
first open(). -/
theorem C3_overlay_idempotence_amended :
    (∀ w : Doc × CDrawer, cartClose (cartClose w) = cartClose w)
  ∧ (∀ w : Doc × MMenu, menuClose (menuClose w) = menuClose w)
  ∧ (∀ w : Doc × CDrawer,
        (cartOpen (cartOpen w)).2.isOpen = (cartOpen w).2.isOpen
      ∧ (cartOpen (cartOpen w)).2.keydownRegistered = (cartOpen w).2.keydownRegistered)
  ∧ (∀ (doc : Doc) (d : CDrawer) (e : Nat) (rest : List Nat),
        d.focusables = e :: rest → e ∈ doc.elements →
        (cartOpen (cartOpen (doc, d))).2.previouslyFocused = some e
      ∧ (cartClose (cartOpen (cartOpen (doc, d)))).1.activeElement = e) := by
  refine ⟨?_, ?_, ?_, ?_⟩
  · intro w
    rcases w with ⟨doc, d⟩
    cases h : d.previouslyFocused <;> simp [cartClose, h]
  · intro w
    rcases w with ⟨doc, m⟩
    cases h : m.previouslyFocused <;> cases ht : m.triggerExpanded <;>
      simp [menuClose, h, ht]
  · intro w
    exact ⟨rfl, rfl⟩
  · intro doc d e rest hf he
    cases hs : d.stale <;>
      refine ⟨by simp [cartOpen, hf, he, hs, focusElem],
              by simp [cartOpen, cartClose, hf, he, hs, focusElem]⟩

/-- Witness for C3's amended theorem: a concrete double close and double
open-close on a drawer with one focusable descendant. -/
theorem C3_overlay_idempotence_amended_witness :
    cartClose (cartClose (⟨1, [0, 1, 2]⟩,
        ⟨true, false, true, true, some 1, false, false,
          ⟨true, none, none, none, true⟩, 0, [2]⟩))
      = cartClose (⟨1, [0, 1, 2]⟩,
        ⟨true, false, true, true, some 1, false, false,
          ⟨true, none, none, none, true⟩, 0, [2]⟩)
  ∧ (cartClose (cartOpen (cartOpen (⟨1, [0, 1, 2]⟩,
        ⟨false, true, false, false, none, false, false,
          ⟨true, none, none, none, true⟩, 0, [2]⟩)))).1.activeElement = 2 :=
  ⟨C3_overlay_idempotence_amended.1 _,
   (C3_overlay_idempotence_amended.2.2.2 ⟨1, [0, 1, 2]⟩
      ⟨false, true, false, false, none, false, false,
        ⟨true, none, none, none, true⟩, 0, [2]⟩ 2 [] rfl (by decide)).2⟩

/-- C4, counterexample: a cart:updated event carrying bundled cart-drawer
HTML mutates a closed drawer's DOM immediately (the body is re-rendered) and
does not set the stale flag — contradicting "sets stale and leaves the closed
drawer's DOM unmutated regardless of whether the event carries bundled
section HTML". -/
theorem C4_counterexample_bundled_html_mutates_closed_drawer :
    ((onCartUpdated (some ⟨true, some ⟨"new items", false⟩, none, none, true⟩)
        (⟨0, [0]⟩, ⟨false, true, false, false, none, false, false,
          ⟨true, some ⟨"old items", false⟩, some ⟨"checkout", false⟩, none, true⟩,
          0, []⟩)).2.stale = false)
  ∧ ((onCartUpdated (some ⟨true, some ⟨"new items", false⟩, none, none, true⟩)
        (⟨0, [0]⟩, ⟨false, true, false, false, none, false, false,
          ⟨true, some ⟨"old items", false⟩, some ⟨"checkout", false⟩, none, true⟩,
          0, []⟩)).2.content.body = some ⟨"new items", false⟩)
  ∧ (⟨"new items", false⟩ : Elem) ≠ ⟨"old items", false⟩ := by
  decide

/-- C4, amended: a cart:updated publication with no bundled cart-drawer HTML,
arriving while the drawer is closed, only sets stale (DOM, loading state and
refresh count untouched); a publication carrying bundled HTML renders it
immediately, open or closed, and leaves stale alone; the next open() on a
stale drawer triggers exactly one refresh and clears stale, while open() on a
non-stale drawer triggers none. -/
theorem C4_stale_flag_amended :
    (∀ (doc : Doc) (d : CDrawer), d.isOpen = false →
        onCartUpdated none (doc, d) = (doc, { d with stale := true }))
  ∧ (∀ (doc : Doc) (d : CDrawer) (incoming : DrawerDoc),
        onCartUpdated (some incoming) (doc, d)
          = (doc, { d with content := renderFromHTML incoming d.content }))
  ∧ (∀ (doc : Doc) (d : CDrawer), d.stale = true →
        (cartOpen (doc, d)).2.refreshCount = d.refreshCount + 1
      ∧ (cartOpen (doc, d)).2.stale = false)
  ∧ (∀ (doc : Doc) (d : CDrawer), d.stale = false →
        (cartOpen (doc, d)).2.refreshCount = d.refreshCount) := by
  refine ⟨?_, fun doc d incoming => rfl, ?_, ?_⟩
  · intro doc d h
    simp [onCartUpdated, h]
  · intro doc d h
    constructor <;> simp [cartOpen, h]
  · intro doc d h
    simp [cartOpen, h]

/-- Witness for C4's amended theorem: a concrete closed drawer marked stale by
an event without bundled HTML, and a concrete stale drawer refreshed once on
open. -/
theorem C4_stale_flag_amended_witness :
    onCartUpdated none (⟨0, [0]⟩,
        ⟨false, true, false, false, none, false, false,
          ⟨true, none, none, none, true⟩, 0, []⟩)
      = (⟨0, [0]⟩, ⟨false, true, false, false, none, true, false,
          ⟨true, none, none, none, true⟩, 0, []⟩)
  ∧ (cartOpen (⟨0, [0]⟩,
        ⟨false, true, false, false, none, true, false,
          ⟨true, none, none, none, true⟩, 0, []⟩)).2.refreshCount = 1 :=
  ⟨C4_stale_flag_amended.1 _ _ rfl, (C4_stale_flag_amended.2.2.1 _ _ rfl).1⟩

/-- C8. For the cart drawer and the mobile menu: close() after open() restores
focus to the exact element focused immediately before open() (any starting
focus target, body included), and when the captured element is no longer in
the document, the restoration leaves the document untouched. -/
theorem C8_focus_restoration :
    (∀ (doc : Doc) (d : CDrawer), doc.activeElement ∈ doc.elements →
        (cartClose (cartOpen (doc, d))).1.activeElement = doc.activeElement)
  ∧ (∀ (doc : Doc) (d : CDrawer) (e : Nat), d.previouslyFocused = some e →
        e ∉ doc.elements → (cartClose (doc, d)).1 = doc)
  ∧ (∀ (doc : Doc) (m : MMenu), doc.activeElement ∈ doc.elements →
        (menuClose (menuOpen (doc, m))).1.activeElement = doc.activeElement)
  ∧ (∀ (doc : Doc) (m : MMenu) (e : Nat), m.previouslyFocused = some e →
        e ∉ doc.elements → (menuClose (doc, m)).1 = doc) := by
  refine ⟨?_, ?_, ?_, ?_⟩
  · intro doc d h
    cases hs : d.stale with
    | false =>
      cases hf : d.focusables with
      | nil => simp [cartOpen, cartClose, hs, hf, focusElem, h]
      | cons e rest =>
        by_cases hm : e ∈ doc.elements <;>
          simp [cartOpen, cartClose, hs, hf, focusElem, h, hm]
    | true =>
      cases hf : d.focusables with
      | nil => simp [cartOpen, cartClose, hs, hf, focusElem, h]
      | cons e rest =>
        by_cases hm : e ∈ doc.elements <;>
          simp [cartOpen, cartClose, hs, hf, focusElem, h, hm]
  · intro doc d e hprev hne
    simp [cartClose, hprev, focusElem_not_mem _ _ hne]
  · intro doc m h
    cases hb : m.closeBtn with
    | none => simp [menuOpen, menuClose, hb, focusElem, h]
    | some b =>
      by_cases hm : b ∈ doc.elements <;>
        simp [menuOpen, menuClose, hb, focusElem, h, hm]
  · intro doc m e hprev hne
    simp [menuClose, hprev, focusElem_not_mem _ _ hne]

/-- Witness for C8: focus returns to element 1 through a concrete open-close
cycle, and closing with a captured element that left the document leaves the
document untouched. -/
theorem C8_focus_restoration_witness :
    (cartClose (cartOpen (⟨1, [0, 1, 2]⟩,
        ⟨false, true, false, false, none, false, false,
          ⟨true, none, none, none, true⟩, 0, [2]⟩))).1.activeElement = 1
  ∧ (menuClose (⟨5, [0, 5]⟩,
        ⟨true, false, true, some true, true, some 7, some 9⟩)).1 = ⟨5, [0, 5]⟩ :=
  ⟨C8_focus_restoration.1 ⟨1, [0, 1, 2]⟩
     ⟨false, true, false, false, none, false, false,
       ⟨true, none, none, none, true⟩, 0, [2]⟩ (by decide),
   C8_focus_restoration.2.2.2 ⟨5, [0, 5]⟩
     ⟨true, false, true, some true, true, some 7, some 9⟩ 7 rfl (by decide)⟩

/-! ## Filter drawer fragment apply (FilterDrawer.applyFilters, src/unnamed/part_000)

URLs are modelled structurally: a base (origin plus path) and the query
parameters in order. `location.href` comparison in the source is comparison
of serialized URLs, which structural equality models.
-/

structure Url where
  base : String
  params : List (String × String)
deriving DecidableEq, Repr

/-- URLSearchParams.delete: remove every value for the key. -/
def delParam (u : Url) (k : String) : Url :=
  { u with params := u.params.filter (fun p => p.1 != k) }

/-- URLSearchParams.set: replace any existing values for the key. -/
def setParam (u : Url) (k v : String) : Url :=
  { u with params := (delParam u k).params ++ [(k, v)] }

/-- A parsed section-rendering response for the filter drawer: the elements
matchable by the swap selectors, and the `.filter-drawer-body` element. -/
structure FDoc where
  regions : List (String × Elem)
  drawerBody : Option Elem
deriving DecidableEq, Repr

/-- State of a `filter-drawer` component as applyFilters observes and mutates
it. The overlay aspects of FilterDrawer.close (focus restoration, keydown
listener) repeat the cart drawer's close and are modelled in the overlay
section; here close() shows up as clearing the open flag. -/
structure FDState where
  isOpen : Bool
  isLoading : Bool
  sectionId : Option String
  sectionRegions : List (String × Elem)
  drawerBody : Option Elem
  currentUrl : Url
  history : List Url
deriving DecidableEq, Repr

/-- The region selectors applyFilters swaps, in call order. -/
def fdSelectors : List String :=
  ["[data-products]", "[data-active-filters]", "[data-sorting]", ".filter-count"]

/-- FilterDrawer.applyFilters for a given fetch outcome: bail out without a
section id; add `is-loading` to the section; on a failed fetch or non-ok
response render nothing; on ok swap the four section regions and the drawer
form body, push the canonical URL (the request URL without `section_id`) when
it differs from the current location, and close the drawer if open; the
`finally` block removes `is-loading` in every case. The fetch target is
`setParam url "section_id" sid`. -/
def applyFilters (url : Url) (outcome : FetchOutcome FDoc) (s : FDState) : FDState :=
  match s.sectionId with
  | none => s
  | some _ =>
    let s1 := { s with isLoading := true }
    match outcome with
    | .network => { s1 with isLoading := false }
    | .httpError _ => { s1 with isLoading := false }
    | .ok doc =>
        let s2 := { s1 with
          sectionRegions := mergeRegions fdSelectors s1.sectionRegions doc.regions }
        let s3 := match s2.drawerBody, doc.drawerBody with
          | some b, some nb => { s2 with drawerBody := some { b with inner := nb.inner } }
          | _, _ => s2
        let cleanUrl := delParam url "section_id"
        let s4 := if cleanUrl ≠ s3.currentUrl then
            { s3 with history := s3.history ++ [cleanUrl], currentUrl := cleanUrl }
          else s3
        let s5 := if s4.isOpen then { s4 with isOpen := false } else s4
        { s5 with isLoading := false }

/-- C7. Failed fragment refreshes are absorbed locally. Cart drawer: a
transport error, a non-ok status, or a body without a `cart-drawer` element
leaves everything except the loading flag (and the refresh counter) exactly as
it was — content untouched, no error surface. Filter drawer: a transport error
or non-ok status leaves the state unchanged except the cleared loading flag,
and an ok response whose body matches no region leaves every region and the
form body untouched with the loading flag cleared. -/
theorem C7_refresh_failures_absorbed :
    (∀ d : CDrawer,
        cartRefreshRun .network d
          = { d with refreshCount := d.refreshCount + 1, isLoading := false })
  ∧ (∀ (d : CDrawer) (status : Nat),
        cartRefreshRun (.httpError status) d
          = { d with refreshCount := d.refreshCount + 1, isLoading := false })
  ∧ (∀ (d : CDrawer) (body : DrawerDoc), body.drawerPresent = false →
        cartRefreshRun (.ok body) d
          = { d with refreshCount := d.refreshCount + 1, isLoading := false })
  ∧ (∀ (s : FDState) (url : Url), s.sectionId.isSome →
        applyFilters url .network s = { s with isLoading := false }
      ∧ ∀ status, applyFilters url (.httpError status) s = { s with isLoading := false })
  ∧ (∀ (s : FDState) (url : Url) (doc : FDoc), s.sectionId.isSome →
        (∀ sel ∈ fdSelectors, qsel doc.regions sel = none) → doc.drawerBody = none →
        (applyFilters url (.ok doc) s).sectionRegions = s.sectionRegions
      ∧ (applyFilters url (.ok doc) s).drawerBody = s.drawerBody
      ∧ (applyFilters url (.ok doc) s).isLoading = false) := by
  refine ⟨fun d => rfl, fun d status => rfl, ?_, ?_, ?_⟩
  · intro d body h
    simp [cartRefreshRun, renderFromHTML, h]
  · intro s url hsome
    obtain ⟨sid, hsid⟩ := Option.isSome_iff_exists.mp hsome
    exact ⟨by simp [applyFilters, hsid], fun status => by simp [applyFilters, hsid]⟩
  · intro s url doc hsome hreg hb
    obtain ⟨sid, hsid⟩ := Option.isSome_iff_exists.mp hsome
    cases hdb : s.drawerBody <;>
      simp [applyFilters, hsid, hb, hdb, mergeRegions_incoming_absent _ _ _ hreg] <;>
      split_ifs <;> simp

/-- Witness for C7: a network failure on concrete cart-drawer and
filter-drawer states clears the loading flag and changes nothing else. -/
theorem C7_refresh_failures_absorbed_witness :
    cartRefreshRun .network
        ⟨false, true, false, false, none, false, true,
          ⟨true, some ⟨"items", false⟩, none, none, true⟩, 0, []⟩
      = ⟨false, true, false, false, none, false, false,
          ⟨true, some ⟨"items", false⟩, none, none, true⟩, 1, []⟩
  ∧ applyFilters ⟨"/collections/all", []⟩ .network
        ⟨false, false, some "coll", [("[data-products]", ⟨"grid", false⟩)], none,
          ⟨"/collections/all", []⟩, []⟩
      = ⟨false, false, some "coll", [("[data-products]", ⟨"grid", false⟩)], none,
          ⟨"/collections/all", []⟩, []⟩ :=
  ⟨C7_refresh_failures_absorbed.1 _,
   (C7_refresh_failures_absorbed.2.2.2.1
      ⟨false, false, some "coll", [("[data-products]", ⟨"grid", false⟩)], none,
        ⟨"/collections/all", []⟩, []⟩ ⟨"/collections/all", []⟩ rfl).1⟩

/-- C9. After a successful filter/sort fragment apply, a history entry with
the canonical URL is pushed exactly when that canonical URL differs from the
document's current URL; and the canonical URL — the request URL with the
`section_id` parameter removed — coincides with the input URL with
`section_id` removed, as the source computes it. -/
theorem C9_history_push_iff_canonical_change (s : FDState) (url : Url) (doc : FDoc)
    (h : s.sectionId.isSome) :
    (applyFilters url (.ok doc) s).history
      = s.history ++
        (if delParam url "section_id" = s.currentUrl then []
         else [delParam url "section_id"])
  ∧ ∀ sid, delParam (setParam url "section_id" sid) "section_id"
      = delParam url "section_id" := by
  obtain ⟨sid0, hsid⟩ := Option.isSome_iff_exists.mp h
  constructor
  · by_cases hu : delParam url "section_id" = s.currentUrl <;>
      cases hdb : s.drawerBody <;> cases hdocb : doc.drawerBody <;>
        cases ho : s.isOpen <;> simp [applyFilters, hsid, hdb, hdocb, hu, ho]
  · intro sid
    simp [delParam, setParam, List.filter_filter]

/-- Witness for C9: a concrete apply whose canonical URL differs from the
current location pushes exactly that canonical URL. -/
theorem C9_history_push_iff_canonical_change_witness :
    (applyFilters ⟨"/collections/all", [("filter.color", "red")]⟩ (.ok ⟨[], none⟩)
        ⟨false, false, some "coll", [], none, ⟨"/collections/all", []⟩, []⟩).history
      = [⟨"/collections/all", [("filter.color", "red")]⟩] := by
  rw [(C9_history_push_iff_canonical_change
        ⟨false, false, some "coll", [], none, ⟨"/collections/all", []⟩, []⟩
        ⟨"/collections/all", [("filter.color", "red")]⟩ ⟨[], none⟩ rfl).1]
  decide

/-! ## Product form add-to-cart submit (ProductForm.handleSubmit, showError,
clearError, src/assets/product-form.js) -/

structure PFFormState where
  /-- whether the `[data-error]` container exists -/
  errorPresent : Bool
  errorText : String
  errorHidden : Bool
  submitLoading : Bool
  submitDisabled : Bool
  /-- `this.currentVariant?.available`; `none` models no current variant. -/
  currentVariantAvailable : Option Bool
  /-- events dispatched on document during the submit, in order -/
  published : List String
  redirectedToCart : Bool
deriving DecidableEq, Repr

def showError (message : String) (s : PFFormState) : PFFormState :=
  if s.errorPresent then { s with errorText := message, errorHidden := false } else s

def clearError (s : PFFormState) : PFFormState :=
  if s.errorPresent then { s with errorText := "", errorHidden := true } else s

/-- JavaScript `errorData.description || 'Failed to add to cart'`: the
fallback is used when the field is absent or the empty string (both falsy). -/
def descriptionOr (d : Option String) : String :=
  match d with
  | some msg => if msg = "" then "Failed to add to cart" else msg
  | none => "Failed to add to cart"

/-- The add-to-cart response as handleSubmit consumes it: `response.ok` and
the parsed JSON body's `description` field. -/
structure AddToCartResponse where
  ok : Bool
  description : Option String
deriving DecidableEq, Repr

/-- ProductForm.handleSubmit for a given response: clear the previous error,
set the submit button loading and disabled; a non-ok response throws with the
body's description (or the generic fallback), which the catch shows inline
without dispatching any event; an ok response dispatches cart:item-added and,
for the page cart type, redirects; the finally block removes the loading
class and re-enables the button unless the current variant is unavailable. -/
def handleSubmit (resp : AddToCartResponse) (cartTypePage : Bool) (s : PFFormState) :
    PFFormState :=
  let s := clearError s
  let s := { s with submitLoading := true, submitDisabled := true }
  let s :=
    if resp.ok then
      let s := { s with published := s.published ++ ["cart:item-added"] }
      if cartTypePage then { s with redirectedToCart := true } else s
    else
      showError (descriptionOr resp.description) s
  let s := { s with submitLoading := false }
  if s.currentVariantAvailable ≠ some false then { s with submitDisabled := false } else s

/-- C6, counterexample: a non-success response whose JSON body contains the
description field with the empty string shows the generic fallback text, not
"exactly that description text" — `errorData.description || ...` treats the
empty string as falsy. -/
theorem C6_counterexample_empty_description_falls_back :
    (handleSubmit ⟨false, some ""⟩ false
        ⟨true, "", true, false, false, none, [], false⟩).errorText
      = "Failed to add to cart"
  ∧ ("Failed to add to cart" : String) ≠ "" := by
  decide

/-- C6, amended: when an add-to-cart request returns a non-success status with
a JSON body containing a non-empty description, the form's inline alert region
(when present) shows exactly that description, its hidden attribute is
cleared, and no document event is dispatched; an empty or missing description
shows the generic fallback text instead. -/
theorem C6_inline_error_shown_no_event (s : PFFormState) (desc : String)
    (cartTypePage : Bool) (hp : s.errorPresent = true) (hd : desc ≠ "") :
    (handleSubmit ⟨false, some desc⟩ cartTypePage s).errorText = desc
  ∧ (handleSubmit ⟨false, some desc⟩ cartTypePage s).errorHidden = false
  ∧ (handleSubmit ⟨false, some desc⟩ cartTypePage s).published = s.published := by
  have hdesc : descriptionOr (some desc) = desc := by simp [descriptionOr, hd]
  by_cases hv : s.currentVariantAvailable ≠ some false <;>
    refine ⟨?_, ?_, ?_⟩ <;>
      simp [handleSubmit, clearError, showError, hp, hdesc, hv]

/-- Witness for C6: a concrete 422-style response with description
"Only 2 available" shows exactly that text in the alert region, unhides it,
and dispatches nothing. -/
theorem C6_inline_error_shown_no_event_witness :
    (handleSubmit ⟨false, some "Only 2 available"⟩ false
        ⟨true, "", true, false, false, some true, [], false⟩).errorText
      = "Only 2 available"
  ∧ (handleSubmit ⟨false, some "Only 2 available"⟩ false
        ⟨true, "", true, false, false, some true, [], false⟩).errorHidden = false
  ∧ (handleSubmit ⟨false, some "Only 2 available"⟩ false
        ⟨true, "", true, false, false, some true, [], false⟩).published = [] :=
  C6_inline_error_shown_no_event
    ⟨true, "", true, false, false, some true, [], false⟩
    "Only 2 available" false rfl (by decide)

/-! ## Quantity selector (QuantitySelector, src/assets/cart-drawer.js)

The input's value is `some n` when numeric and `none` when `parseInt` yields
NaN; NaN propagates through `+` and `Math.min`/`Math.max`, so `update` keeps a
non-numeric value non-numeric, while `clamp` maps it to the minimum. -/

def qsUpdate (mn mx delta : Int) (v : Option Int) : Option Int :=
  match v with
  | some n => some (min mx (max mn (n + delta)))
  | none => none

def qsClamp (mn mx : Int) (v : Option Int) : Option Int :=
  match v with
  | some n => some (min mx (max mn n))
  | none => some mn

inductive QSOp where
  | update (delta : Int)
  | clamp
deriving DecidableEq, Repr

def qsApply (mn mx : Int) (v : Option Int) : QSOp → Option Int
  | .update delta => qsUpdate mn mx delta v
  | .clamp => qsClamp mn mx v

def qsRun (mn mx : Int) (v : Option Int) (ops : List QSOp) : Option Int :=
  ops.foldl (qsApply mn mx) v

lemma qsApply_bounds (mn mx : Int) (h : mn ≤ mx) (v : Option Int) (op : QSOp)
    (hv : ∃ m, v = some m) :
    ∃ m, qsApply mn mx v op = some m ∧ mn ≤ m ∧ m ≤ mx := by
  obtain ⟨n, rfl⟩ := hv
  cases op with
  | update delta =>
    exact ⟨_, rfl, le_min h (le_max_left _ _), min_le_left _ _⟩
  | clamp =>
    exact ⟨_, rfl, le_min h (le_max_left _ _), min_le_left _ _⟩

lemma qsRun_bounds (mn mx : Int) (h : mn ≤ mx) :
    ∀ (ops : List QSOp) (v : Option Int),
      (∃ m, v = some m ∧ mn ≤ m ∧ m ≤ mx) →
      ∃ m, qsRun mn mx v ops = some m ∧ mn ≤ m ∧ m ≤ mx := by
  intro ops
  induction ops with
  | nil =>
    intro v hv
    simpa [qsRun] using hv
  | cons op rest ih =>
    intro v hv
    obtain ⟨m, hm, _, _⟩ := hv
    obtain ⟨m2, he, h3, h4⟩ := qsApply_bounds mn mx h v op ⟨m, hm⟩
    simpa [qsRun] using ih (qsApply mn mx v op) ⟨m2, he, h3, h4⟩

/-- C10. With a well-formed range: update on a numeric value is exactly the
clamped addition, clamp maps a non-numeric value to the minimum and any
numeric value into the range, and any nonempty sequence of update/clamp
operations starting from a numeric value ends numeric and within
[min, max]. -/
theorem C10_quantity_stays_clamped (mn mx : Int) (h : mn ≤ mx) :
    (∀ n delta : Int, delta = -1 ∨ delta = 1 →
        qsUpdate mn mx delta (some n) = some (min mx (max mn (n + delta))))
  ∧ qsClamp mn mx none = some mn
  ∧ (∀ n : Int, ∃ m, qsClamp mn mx (some n) = some m ∧ mn ≤ m ∧ m ≤ mx)
  ∧ (∀ (n : Int) (op : QSOp) (ops : List QSOp),
        ∃ m, qsRun mn mx (some n) (op :: ops) = some m ∧ mn ≤ m ∧ m ≤ mx) := by
  refine ⟨fun n delta _ => rfl, rfl, ?_, ?_⟩
  · intro n
    exact ⟨_, rfl, le_min h (le_max_left _ _), min_le_left _ _⟩
  · intro n op ops
    obtain ⟨m2, he, h3, h4⟩ := qsApply_bounds mn mx h (some n) op ⟨n, rfl⟩
    simpa [qsRun] using qsRun_bounds mn mx h ops (qsApply mn mx (some n) op) ⟨m2, he, h3, h4⟩

/-- Witness for C10: a concrete increase at the maximum stays at the maximum,
and clamp maps a non-numeric value to the minimum. -/
theorem C10_quantity_stays_clamped_witness :
    qsUpdate 1 99 1 (some 99) = some 99 ∧ qsClamp 1 99 none = some 1 :=
  ⟨by
    rw [(C10_quantity_stays_clamped 1 99 (by decide)).1 99 1 (Or.inr rfl)]
    decide,
   (C10_quantity_stays_clamped 1 99 (by decide)).2.1⟩

end BurningOrange
